import Mathlib

/-!
Verification of a fork of the lotus sector-storage and raft-consensus core.

Shallow embedding of three Go files:

* lib/consensus/raft/consensus.go        (namespace Lotus.Raft)
* extern/sector-storage/stores/remote.go (namespace Lotus.Stores)
* extern/sector-storage/worker_local.go  (namespace Lotus.Worker)

External collaborators (the raft engine, the sector index, the local store,
HTTP, the filesystem) appear as explicit outcome oracles passed to each
embedded function, so that every embedded definition is a pure, executable
function of the source control flow.
-/

namespace Lotus

/-- Error values are modelled by their message text. -/
abbrev Err := String

namespace Raft

/-- Account addresses (Go addr.Address), modelled opaquely. -/
abbrev Address := Nat

/-- Operation identifiers (Go uuid.UUID), modelled opaquely. -/
abbrev UUID := Nat

/-- Signed message bodies (Go types.SignedMessage), modelled opaquely. -/
abbrev SignedMessage := Nat

/-- RaftState from consensus.go: the nonce map, the uuid map and the message
pool.  The MessagePool reference is modelled by the list of messages passed to
Mpool.Add, in call order (the side-effect sink of the state machine). -/
structure RaftState where
  NonceMap : Address → Option Nat
  MsgUuids : UUID → Option SignedMessage
  mpoolAdds : List SignedMessage

/-- newRaftState from consensus.go: both maps start empty.  The Go constructor
receives the message-pool reference; its Add log starts empty here. -/
def newRaftState : RaftState :=
  { NonceMap := fun _ => none
    MsgUuids := fun _ => none
    mpoolAdds := [] }

/-- ConsensusOp from consensus.go. -/
structure ConsensusOp where
  Nonce : Nat
  Uuid : UUID
  Addr : Address
  SignedMsg : SignedMessage

/-- ConsensusOp.ApplyTo from consensus.go, lines 72-78: store the nonce under
the address, store the signed message under the uuid, hand the signed message
to Mpool.Add, and return the state with a nil error. -/
def ConsensusOp.ApplyTo (c : ConsensusOp) (state : RaftState) :
    RaftState × Option Err :=
  ({ NonceMap := fun a => if a = c.Addr then some c.Nonce else state.NonceMap a
     MsgUuids := fun u => if u = c.Uuid then some c.SignedMsg else state.MsgUuids u
     mpoolAdds := state.mpoolAdds ++ [c.SignedMsg] }, none)

/-- Result of cc.consensus.GetLogHead() as observed by Consensus.State. -/
inductive LogHead
  | noState
  | fail (e : Err)
  | ok (s : RaftState)
  | wrongType

/-- Consensus.State from consensus.go, lines 487-504: ErrNoState yields a fresh
empty state and a nil error; other errors propagate; a head value of the wrong
dynamic type is an error; otherwise the head state is returned. -/
def Consensus.State : LogHead → Except Err RaftState
  | .noState => .ok newRaftState
  | .fail e => .error e
  | .ok s => .ok s
  | .wrongType => .error "wrong state type"

/-- Trace of one Consensus.Commit call: how many times CommitOp ran, how many
retry sleeps happened, and the final error value returned to the caller. -/
structure CommitTrace where
  commitOps : Nat
  sleeps : Nat
  finalErr : Option Err
deriving DecidableEq, Repr

/-- Consensus.Commit from consensus.go, lines 372-418.  The loop body runs for
every i in [0, CommitRetries]; it assigns finalErr from CommitOp and executes
goto RETRY on error, but the RETRY label is the very next statement (the
sleep), which the success path also falls through to, so every iteration
unconditionally calls CommitOp once and then sleeps once; the loop never
breaks early and the last finalErr is returned.  commitOp i gives the outcome
of the i-th CommitOp invocation (none meaning success). -/
def Consensus.Commit (commitRetries : Nat) (commitOp : Nat → Option Err) :
    CommitTrace :=
  (List.range (commitRetries + 1)).foldl
    (fun tr i =>
      { commitOps := tr.commitOps + 1
        sleeps := tr.sleeps + 1
        finalErr := commitOp i })
    { commitOps := 0, sleeps := 0, finalErr := none }

/-- Outcome sequence in which the first CommitOp attempt succeeds and the
second fails (for example because leadership was lost between attempts). -/
def commitOpFirstSucceeds : Nat → Option Err :=
  fun i => if i = 0 then none else some "node is not the leader"

/-- C1: with CommitRetries = 1 and a first attempt that succeeds, the code
still invokes CommitOp a second time, sleeps after both attempts, and returns
the error of the second attempt instead of nil.  This contradicts the claim
that no CommitOp invocation happens after a success and that Commit then
returns nil; the dead goto RETRY (jumping to the statement that follows it
anyway) shows a break after success was intended. -/
theorem commit_runs_again_after_success :
    Consensus.Commit 1 commitOpFirstSucceeds =
      { commitOps := 2, sleeps := 2, finalErr := some "node is not the leader" } := by
  rfl

/-- Mutable component state touched by Consensus.Shutdown. -/
structure ShutdownState where
  raftStopped : Bool
  hostClosed : Bool
  ctxCancelled : Bool
  rpcReadyClosed : Bool
deriving DecidableEq, Repr

/-- Go runtime fault: close of an already-closed channel panics. -/
inductive GoPanic
  | closeOfClosedChannel
deriving DecidableEq, Repr

/-- Consensus.Shutdown from consensus.go, lines 257-285.  The shutdown guard
(the cc.shutdown flag and its lock) is commented out in the source, so every
call runs the full body: stop the raft engine (an error is only logged),
optionally close the host, cancel the internal context (cancelling twice is
harmless in Go), and close the rpcReady channel; closing it a second time is
a runtime panic. -/
def Consensus.Shutdown (hostShutdown : Bool) (st : ShutdownState) :
    Except GoPanic (ShutdownState × Option Err) :=
  let st1 := { st with raftStopped := true }
  let st2 := if hostShutdown then { st1 with hostClosed := true } else st1
  let st3 := { st2 with ctxCancelled := true }
  if st3.rpcReadyClosed then
    .error .closeOfClosedChannel
  else
    .ok ({ st3 with rpcReadyClosed := true }, none)

/-- Component state before the first Shutdown call. -/
def freshShutdownState : ShutdownState :=
  { raftStopped := false, hostClosed := false
    ctxCancelled := false, rpcReadyClosed := false }

/-- C4 counterexample: from a fresh component a first Shutdown succeeds, but a
second Shutdown panics on closing the already-closed rpcReady channel, so
Shutdown is not idempotent. -/
theorem shutdown_second_call_panics_concrete :
    Consensus.Shutdown false freshShutdownState =
      .ok ({ raftStopped := true, hostClosed := false
             ctxCancelled := true, rpcReadyClosed := true }, none) ∧
    Consensus.Shutdown false
        { raftStopped := true, hostClosed := false
          ctxCancelled := true, rpcReadyClosed := true } =
      .error .closeOfClosedChannel := by
  exact ⟨rfl, rfl⟩

/-- C4 (amended): a first Shutdown from a not-yet-shut-down component returns
a nil error and leaves the rpcReady channel closed, and any further Shutdown
call panics on close of the already-closed channel instead of returning. -/
theorem shutdown_not_idempotent (hs hs2 : Bool) (st : ShutdownState)
    (h : st.rpcReadyClosed = false) :
    ∃ stDone : ShutdownState,
      Consensus.Shutdown hs st = .ok (stDone, none) ∧
      stDone.rpcReadyClosed = true ∧
      Consensus.Shutdown hs2 stDone = .error .closeOfClosedChannel := by
  refine ⟨{ raftStopped := true
            hostClosed := if hs then true else st.hostClosed
            ctxCancelled := true
            rpcReadyClosed := true }, ?_, rfl, ?_⟩
  · cases hs <;> simp [Consensus.Shutdown, h]
  · cases hs2 <;> simp [Consensus.Shutdown]

/-- Witness for shutdown_not_idempotent at a concrete input. -/
theorem shutdown_not_idempotent_witness :
    freshShutdownState.rpcReadyClosed = false ∧
    ∃ stDone : ShutdownState,
      Consensus.Shutdown true freshShutdownState = .ok (stDone, none) ∧
      stDone.rpcReadyClosed = true ∧
      Consensus.Shutdown false stDone = .error .closeOfClosedChannel :=
  ⟨rfl, shutdown_not_idempotent true false freshShutdownState rfl⟩

/-- C6: ApplyTo returns a nil error, stores the nonce of the op under its
address and the signed message under its uuid, leaves every other entry of
both maps unchanged, and appends exactly one Mpool.Add call carrying the
signed message of the op. -/
theorem applyTo_updates_maps_and_mpool (c : ConsensusOp) (s : RaftState)
    (a : Address) (u : UUID) (ha : a ≠ c.Addr) (hu : u ≠ c.Uuid) :
    (c.ApplyTo s).2 = none ∧
    (c.ApplyTo s).1.NonceMap c.Addr = some c.Nonce ∧
    (c.ApplyTo s).1.MsgUuids c.Uuid = some c.SignedMsg ∧
    (c.ApplyTo s).1.NonceMap a = s.NonceMap a ∧
    (c.ApplyTo s).1.MsgUuids u = s.MsgUuids u ∧
    (c.ApplyTo s).1.mpoolAdds = s.mpoolAdds ++ [c.SignedMsg] := by
  refine ⟨rfl, ?_, ?_, ?_, ?_, rfl⟩ <;> simp [ConsensusOp.ApplyTo, ha, hu]

/-- Witness for applyTo_updates_maps_and_mpool at a concrete input. -/
theorem applyTo_updates_maps_and_mpool_witness :
    (2 : Address) ≠ ConsensusOp.Addr ⟨7, 11, 1, 99⟩ ∧
    (12 : UUID) ≠ ConsensusOp.Uuid ⟨7, 11, 1, 99⟩ ∧
    ((ConsensusOp.ApplyTo ⟨7, 11, 1, 99⟩ newRaftState).2 = none ∧
     (ConsensusOp.ApplyTo ⟨7, 11, 1, 99⟩ newRaftState).1.NonceMap 1 = some 7 ∧
     (ConsensusOp.ApplyTo ⟨7, 11, 1, 99⟩ newRaftState).1.MsgUuids 11 = some 99 ∧
     (ConsensusOp.ApplyTo ⟨7, 11, 1, 99⟩ newRaftState).1.NonceMap 2 =
       newRaftState.NonceMap 2 ∧
     (ConsensusOp.ApplyTo ⟨7, 11, 1, 99⟩ newRaftState).1.MsgUuids 12 =
       newRaftState.MsgUuids 12 ∧
     (ConsensusOp.ApplyTo ⟨7, 11, 1, 99⟩ newRaftState).1.mpoolAdds =
       newRaftState.mpoolAdds ++ [99]) :=
  ⟨by decide, by decide,
   applyTo_updates_maps_and_mpool ⟨7, 11, 1, 99⟩ newRaftState 2 12
     (by decide) (by decide)⟩

/-- C8: when the log head reports no state (a never-populated log),
Consensus.State returns a fresh empty state together with a nil error: both
maps of the returned state are empty everywhere. -/
theorem state_on_empty_log (a : Address) (u : UUID) :
    Consensus.State .noState = .ok newRaftState ∧
    newRaftState.NonceMap a = none ∧
    newRaftState.MsgUuids u = none :=
  ⟨rfl, rfl, rfl⟩

end Raft

namespace Stores

/-- SectorFileType bitmask (storiface).  Modelled from the spec: the storiface
package is not under src; the spec fixes the three file types Unsealed,
Sealed, Cache encoded as a bitmask. -/
abbrev SectorFileType := Nat

/-- No file type. -/
def FTNone : SectorFileType := 0

/-- Unsealed file type bit. -/
def FTUnsealed : SectorFileType := 1

/-- Sealed file type bit. -/
def FTSealed : SectorFileType := 2

/-- Cache file type bit. -/
def FTCache : SectorFileType := 4

/-- PathTypes iteration order used by remote.go (storiface.PathTypes). -/
def PathTypes : List SectorFileType := [FTUnsealed, FTSealed, FTCache]

/-- Per-type paths (storiface.SectorPaths); an empty string means absent. -/
structure SectorPaths where
  Unsealed : String
  Sealed : String
  Cache : String
deriving DecidableEq, Repr

/-- All-absent paths. -/
def emptyPaths : SectorPaths := ⟨"", "", ""⟩

/-- Modelled from the spec: storiface.PathByType reads the path slot of one
file type. -/
def PathByType (p : SectorPaths) (ft : SectorFileType) : String :=
  if ft = FTUnsealed then p.Unsealed
  else if ft = FTSealed then p.Sealed
  else if ft = FTCache then p.Cache
  else ""

/-- Modelled from the spec: storiface.SetPathByType writes the path slot of
one file type. -/
def SetPathByType (p : SectorPaths) (ft : SectorFileType) (s : String) :
    SectorPaths :=
  if ft = FTUnsealed then { p with Unsealed := s }
  else if ft = FTSealed then { p with Sealed := s }
  else if ft = FTCache then { p with Cache := s }
  else p

/-- Sector identifiers (abi.SectorID), modelled opaquely. -/
abbrev SectorID := Nat

/-- One storage location returned by the sector index (stores.SectorStorageInfo):
its identifier, its URL list and its weight. -/
structure StorageInfo where
  ID : String
  URLs : List String
  Weight : Nat
deriving DecidableEq, Repr

/-- Errors returned by acquireFromRemote, one constructor per return site. -/
inductive RemoteErr
  | indexErr (e : Err)
  | sectorNotFound
  | tempDestErr (e : Err)
  | removeDestErr (e : Err)
  | moveErr (e : Err)
  | fetchAllFailed (merr : List Err)
deriving DecidableEq, Repr

/-- Which RemoteErr values wrap storiface.ErrSectorNotFound (errors.Is):
only the empty-location-list return site does; the total-fetch-failure return
site wraps the accumulated multi-error instead. -/
def RemoteErr.wrapsSectorNotFound : RemoteErr → Bool
  | .sectorNotFound => true
  | _ => false

/-- Message of a per-URL fetch error as accumulated into the multi-error. -/
def fetchErrMsg (url storageID e : String) : Err :=
  "fetch error " ++ url ++ " (storage " ++ storageID ++ "): " ++ e

/-- Outcome oracles for one acquireFromRemote call (the sector id, file type
and destination path are fixed by the caller): the sector-index query, the
temp-dir creation, the destination removal, the per-URL fetch and the final
move.  The filesystem oracles are deterministic across iterations. -/
structure AfrEnv where
  findSector : Except Err (List StorageInfo)
  tempFetchDest : Except Err String
  removeDest : Option Err
  fetch : String → Option Err
  move : Option Err

/-- Inner loop of acquireFromRemote over the URLs of one location
(remote.go, lines 195-219): per URL compute the temp destination, remove the
final destination, fetch, and move; a fetch error is appended to the
multi-error and iteration continues, every other error returns at once.
Result .ok (some url, merr) is a successful fetch from url, .ok (none, merr)
means every URL of this location failed to fetch. -/
def acquireFromRemoteUrls (env : AfrEnv) (info : StorageInfo) :
    List String → List Err → Except RemoteErr (Option String × List Err)
  | [], merr => .ok (none, merr)
  | url :: rest, merr =>
    match env.tempFetchDest with
    | .error e => .error (.tempDestErr e)
    | .ok _tempDest =>
      match env.removeDest with
      | some e => .error (.removeDestErr e)
      | none =>
        match env.fetch url with
        | some e =>
          acquireFromRemoteUrls env info rest
            (merr ++ [fetchErrMsg url info.ID e])
        | none =>
          match env.move with
          | some e => .error (.moveErr e)
          | none => .ok (some url, merr)

/-- Outer loop of acquireFromRemote over the sorted locations (remote.go,
lines 192-222): try each location in turn; when every URL everywhere failed
to fetch, return the error that wraps the accumulated multi-error. -/
def acquireFromRemoteLocs (env : AfrEnv) :
    List StorageInfo → List Err → Except RemoteErr (String × List Err)
  | [], merr => .error (.fetchAllFailed merr)
  | info :: rest, merr =>
    match acquireFromRemoteUrls env info info.URLs merr with
    | .error e => .error e
    | .ok (some url, merrOut) => .ok (url, merrOut)
    | .ok (none, merrOut) => acquireFromRemoteLocs env rest merrOut

/-- Insertion into a list sorted ascending on Weight. -/
def insertByWeight (x : StorageInfo) : List StorageInfo → List StorageInfo
  | [] => [x]
  | y :: ys =>
    if x.Weight ≤ y.Weight then x :: y :: ys else y :: insertByWeight x ys

/-- Ascending sort on Weight (remote.go sorts with sort.Slice and the
comparator Weight i < Weight j; the algorithm of sort.Slice is unspecified,
modelled by an insertion sort ascending on Weight). -/
def sortByWeight : List StorageInfo → List StorageInfo
  | [] => []
  | x :: xs => insertByWeight x (sortByWeight xs)

/-- acquireFromRemote from remote.go, lines 177-223: query the index, fail
with the ErrSectorNotFound-wrapping error when no location holds the file,
else sort by weight and run the fetch loops.  On success the multi-error is
only logged and the source URL is returned. -/
def Remote.acquireFromRemote (env : AfrEnv) :
    Except RemoteErr (String × List Err) :=
  match env.findSector with
  | .error e => .error (.indexErr e)
  | .ok si =>
    if si.length = 0 then .error .sectorNotFound
    else acquireFromRemoteLocs env (sortByWeight si) []

/-- Accumulated multi-error of one full pass over the given locations when
fetches fail: one message per failing URL, in iteration order. -/
def afrAllErrs (env : AfrEnv) (si : List StorageInfo) : List Err :=
  si.flatMap fun info =>
    info.URLs.filterMap fun url =>
      (env.fetch url).map fun e => fetchErrMsg url info.ID e

/-- URL loop outcome when every fetch of the location fails. -/
theorem afrUrls_all_fail (env : AfrEnv) (info : StorageInfo) (d : String)
    (htmp : env.tempFetchDest = .ok d) (hrm : env.removeDest = none)
    (hfetch : ∀ url, env.fetch url ≠ none) :
    ∀ (urls : List String) (merr : List Err),
      acquireFromRemoteUrls env info urls merr =
        .ok (none, merr ++ urls.filterMap (fun url =>
          (env.fetch url).map (fun e => fetchErrMsg url info.ID e)))
  | [], merr => by simp [acquireFromRemoteUrls]
  | url :: rest, merr => by
    obtain ⟨e, he⟩ : ∃ e, some e = env.fetch url :=
      Option.ne_none_iff_exists.mp (hfetch url)
    simp only [acquireFromRemoteUrls, htmp, hrm, ← he,
      afrUrls_all_fail env info d htmp hrm hfetch rest, List.filterMap_cons,
      Option.map_some]
    simp

/-- Location loop outcome when every fetch everywhere fails. -/
theorem afrLocs_all_fail (env : AfrEnv) (d : String)
    (htmp : env.tempFetchDest = .ok d) (hrm : env.removeDest = none)
    (hfetch : ∀ url, env.fetch url ≠ none) :
    ∀ (si : List StorageInfo) (merr : List Err),
      acquireFromRemoteLocs env si merr =
        .error (.fetchAllFailed (merr ++ afrAllErrs env si))
  | [], merr => by simp [acquireFromRemoteLocs, afrAllErrs]
  | info :: rest, merr => by
    simp only [acquireFromRemoteLocs,
      afrUrls_all_fail env info d htmp hrm hfetch info.URLs merr,
      afrLocs_all_fail env d htmp hrm hfetch rest, afrAllErrs,
      List.flatMap_cons, List.append_assoc]

/-- C3 (amended): when the index returns at least one location and every
fetch attempt across all locations and URLs fails (with the filesystem steps
succeeding), the returned error wraps the accumulated per-URL fetch errors -
one message per URL of every location, so iteration continued past each
failure - but it does not wrap ErrSectorNotFound (only the no-location
return site does). -/
theorem acquireFromRemote_total_failure (env : AfrEnv) (si : List StorageInfo)
    (d : String) (hfind : env.findSector = .ok si) (hne : si.length ≠ 0)
    (htmp : env.tempFetchDest = .ok d) (hrm : env.removeDest = none)
    (hfetch : ∀ url, env.fetch url ≠ none) :
    Remote.acquireFromRemote env =
      .error (.fetchAllFailed (afrAllErrs env (sortByWeight si))) ∧
    RemoteErr.wrapsSectorNotFound
      (.fetchAllFailed (afrAllErrs env (sortByWeight si))) = false := by
  refine ⟨?_, rfl⟩
  simp only [Remote.acquireFromRemote, hfind, if_neg hne,
    afrLocs_all_fail env d htmp hrm hfetch (sortByWeight si) [],
    List.nil_append]

/-- Witness for acquireFromRemote_total_failure at a concrete input. -/
theorem acquireFromRemote_total_failure_witness :
    AfrEnv.findSector
        { findSector := .ok [⟨"stor1", ["http://peer-a/s1", "http://peer-b/s1"], 0⟩]
          tempFetchDest := .ok "/fast/fetching/s1"
          removeDest := none
          fetch := fun _ => some "connection refused"
          move := none } =
      .ok [⟨"stor1", ["http://peer-a/s1", "http://peer-b/s1"], 0⟩] ∧
    ([⟨"stor1", ["http://peer-a/s1", "http://peer-b/s1"], 0⟩] :
      List StorageInfo).length ≠ 0 ∧
    (Remote.acquireFromRemote
        { findSector := .ok [⟨"stor1", ["http://peer-a/s1", "http://peer-b/s1"], 0⟩]
          tempFetchDest := .ok "/fast/fetching/s1"
          removeDest := none
          fetch := fun _ => some "connection refused"
          move := none } =
      .error (.fetchAllFailed (afrAllErrs
        { findSector := .ok [⟨"stor1", ["http://peer-a/s1", "http://peer-b/s1"], 0⟩]
          tempFetchDest := .ok "/fast/fetching/s1"
          removeDest := none
          fetch := fun _ => some "connection refused"
          move := none }
        (sortByWeight [⟨"stor1", ["http://peer-a/s1", "http://peer-b/s1"], 0⟩]))) ∧
     RemoteErr.wrapsSectorNotFound
       (.fetchAllFailed (afrAllErrs
         { findSector := .ok [⟨"stor1", ["http://peer-a/s1", "http://peer-b/s1"], 0⟩]
           tempFetchDest := .ok "/fast/fetching/s1"
           removeDest := none
           fetch := fun _ => some "connection refused"
           move := none }
         (sortByWeight [⟨"stor1", ["http://peer-a/s1", "http://peer-b/s1"], 0⟩]))) =
       false) :=
  ⟨rfl, by decide,
   acquireFromRemote_total_failure _ _ "/fast/fetching/s1" rfl (by decide) rfl rfl
     (fun _ => by simp)⟩

/-- Environment of the C3 counterexample: one location, one URL, the fetch
fails with a transport error. -/
def afrEnvCex : AfrEnv :=
  { findSector := .ok [⟨"stor1", ["http://peer-a/s1"], 0⟩]
    tempFetchDest := .ok "/fast/fetching/s1"
    removeDest := none
    fetch := fun _ => some "connection refused"
    move := none }

/-- C3 counterexample: with one indexed location whose only URL fails to
fetch, acquireFromRemote returns the error wrapping the accumulated fetch
errors, and that error does not wrap ErrSectorNotFound, contrary to the
claim. -/
theorem acquireFromRemote_counterexample :
    Remote.acquireFromRemote afrEnvCex =
      .error (.fetchAllFailed
        [fetchErrMsg "http://peer-a/s1" "stor1" "connection refused"]) ∧
    RemoteErr.wrapsSectorNotFound
      (.fetchAllFailed
        [fetchErrMsg "http://peer-a/s1" "stor1" "connection refused"]) = false := by
  exact ⟨rfl, rfl⟩

/-- Fuel-driven helper for the population count: halving a positive number at
most n times reaches zero. -/
def onesCountAux : Nat → Nat → Nat
  | 0, _ => 0
  | fuel + 1, n => if n = 0 then 0 else n % 2 + onesCountAux fuel (n / 2)

/-- Population count of a machine word (Go bits.OnesCount). -/
def onesCount (n : Nat) : Nat := onesCountAux n n

/-- Outcome oracles for one Remote.Remove call: the local removal, the
sector-index query and the per-URL HTTP DELETE. -/
structure RemoveEnv where
  localRemove : Option Err
  findSector : Except Err (List StorageInfo)
  deleteRemote : String → Option Err

/-- Inner loop of Remote.Remove over the URLs of one location (remote.go,
lines 525-533): DELETE each URL in turn; a failure is logged and iteration
continues, the first success breaks out of the loop.  The trace records each
attempted URL with its success flag. -/
def removeUrls (del : String → Option Err) : List String → List (String × Bool)
  | [] => []
  | url :: rest =>
    match del url with
    | some _ => (url, false) :: removeUrls del rest
    | none => [(url, true)]

/-- Remote.Remove from remote.go, lines 511-536: reject a type mask that does
not name exactly one file type; a local removal failure and an index failure
return an error; remote DELETE failures are only logged and Remove then
returns nil.  The second component is the trace of DELETE attempts. -/
def Remote.Remove (env : RemoveEnv) (typ : SectorFileType) :
    Option Err × List (String × Bool) :=
  if onesCount typ ≠ 1 then (some "delete expects one file type", [])
  else
    match env.localRemove with
    | some e => (some ("remove from local: " ++ e), [])
    | none =>
      match env.findSector with
      | .error e => (some ("finding existing sector failed: " ++ e), [])
      | .ok si =>
        (none, si.flatMap fun info => removeUrls env.deleteRemote info.URLs)

/-- A location sees at most one successful DELETE: the URL loop breaks at the
first success. -/
theorem removeUrls_successes_le_one (del : String → Option Err) :
    ∀ urls : List String,
      ((removeUrls del urls).filter (fun a => a.2)).length ≤ 1
  | [] => by simp [removeUrls]
  | url :: rest => by
    cases hdel : del url
    · simp [removeUrls, hdel]
    · simpa [removeUrls, hdel] using removeUrls_successes_le_one del rest

/-- C5 (amended): when the type mask names exactly one file type and the
local removal and the index query succeed, Remove returns nil no matter how
the remote DELETE calls fare, the DELETE attempts are the per-location URL
loops, and every location sees at most one successful DELETE (the loop stops
at the first success); a failing local removal or index query, however, is
returned as an error. -/
theorem remove_remote_failures_not_fatal (env : RemoveEnv)
    (typ : SectorFileType) (si : List StorageInfo) (h1 : onesCount typ = 1)
    (h2 : env.localRemove = none) (h3 : env.findSector = .ok si) :
    (Remote.Remove env typ).1 = none ∧
    (Remote.Remove env typ).2 =
      si.flatMap (fun info => removeUrls env.deleteRemote info.URLs) ∧
    ∀ info ∈ si,
      ((removeUrls env.deleteRemote info.URLs).filter (fun a => a.2)).length ≤ 1 := by
  refine ⟨?_, ?_, fun info _ => removeUrls_successes_le_one env.deleteRemote info.URLs⟩ <;>
    simp [Remote.Remove, h1, h2, h3]

/-- Witness for remove_remote_failures_not_fatal at a concrete input: two
locations, the first URL of the first location fails to DELETE. -/
theorem remove_remote_failures_not_fatal_witness :
    onesCount FTCache = 1 ∧
    RemoveEnv.localRemove
        { localRemove := none
          findSector := .ok [⟨"stor1", ["http://peer-a/s1", "http://peer-b/s1"], 0⟩]
          deleteRemote := fun url => if url = "http://peer-a/s1" then some "http 500" else none } =
      none ∧
    RemoveEnv.findSector
        { localRemove := none
          findSector := .ok [⟨"stor1", ["http://peer-a/s1", "http://peer-b/s1"], 0⟩]
          deleteRemote := fun url => if url = "http://peer-a/s1" then some "http 500" else none } =
      .ok [⟨"stor1", ["http://peer-a/s1", "http://peer-b/s1"], 0⟩] ∧
    ((Remote.Remove
        { localRemove := none
          findSector := .ok [⟨"stor1", ["http://peer-a/s1", "http://peer-b/s1"], 0⟩]
          deleteRemote := fun url => if url = "http://peer-a/s1" then some "http 500" else none }
        FTCache).1 = none ∧
     (Remote.Remove
        { localRemove := none
          findSector := .ok [⟨"stor1", ["http://peer-a/s1", "http://peer-b/s1"], 0⟩]
          deleteRemote := fun url => if url = "http://peer-a/s1" then some "http 500" else none }
        FTCache).2 =
       ([⟨"stor1", ["http://peer-a/s1", "http://peer-b/s1"], 0⟩] :
         List StorageInfo).flatMap
         (fun info => removeUrls
           (fun url => if url = "http://peer-a/s1" then some "http 500" else none)
           info.URLs) ∧
     ∀ info ∈ ([⟨"stor1", ["http://peer-a/s1", "http://peer-b/s1"], 0⟩] :
         List StorageInfo),
       ((removeUrls
           (fun url => if url = "http://peer-a/s1" then some "http 500" else none)
           info.URLs).filter (fun a => a.2)).length ≤ 1) :=
  ⟨rfl, rfl, rfl,
   remove_remote_failures_not_fatal _ FTCache _ rfl rfl rfl⟩

/-- Environment of the C5 counterexample: the local removal itself fails. -/
def removeEnvCex : RemoveEnv :=
  { localRemove := some "permission denied"
    findSector := .ok []
    deleteRemote := fun _ => none }

/-- C5 counterexample: a failing local removal is fatal - Remove returns the
wrapping error instead of nil, contrary to the claim that deletion failures
are never fatal. -/
theorem remove_local_failure_fatal :
    (Remote.Remove removeEnvCex FTSealed).1 =
      some "remove from local: permission denied" ∧
    (Remote.Remove removeEnvCex FTSealed).1 ≠ none := by
  exact ⟨rfl, Option.some_ne_none _⟩

/-- FsStat payload (fsutil.FsStat), reduced to the fields the spec names. -/
structure FsStatData where
  Capacity : Int
  Available : Int
deriving DecidableEq, Repr

/-- Outcome of the local FsStat call observed by Remote.FsStat. -/
inductive LocalStatRes
  | ok (st : FsStatData)
  | pathNotFound
  | fail (e : Err)

/-- Outcome oracles for one Remote.FsStat call: the local stat, the index
lookup (reduced to the URL list), URL parsing, the HTTP round trip (reduced
to the status code), the body read of the 500 branch, and the JSON decode. -/
structure FsStatEnv where
  localStat : LocalStatRes
  storageInfo : Except Err (List String)
  urlParse : Except Err Unit
  httpStatus : Except Err Nat
  readBody : Except Err String
  jsonDecode : Except Err FsStatData

/-- Errors returned by Remote.FsStat, one constructor per return site. -/
inductive FsStatErr
  | localErr (e : Err)
  | indexErr (e : Err)
  | noURLs
  | parseErr (e : Err)
  | requestErr (e : Err)
  | pathNotFound
  | http500 (body : String)
  | read500Err (e : Err)
  | decodeErr (e : Err)
deriving DecidableEq, Repr

/-- Tail of Remote.FsStat after the status switch: JSON-decode the response
body. -/
def fsStatDecode (env : FsStatEnv) : Except FsStatErr FsStatData :=
  match env.jsonDecode with
  | .error e => .error (.decodeErr e)
  | .ok out => .ok out

/-- Remote.FsStat from remote.go, lines 561-621: return the local stat unless
it reports path-not-found; then query the index, take the first URL, issue
the stat request, and switch on the status code.  The switch handles only
200 (break), 404 and 500; any other status falls out of the switch into the
JSON decode. -/
def Remote.FsStat (env : FsStatEnv) : Except FsStatErr FsStatData :=
  match env.localStat with
  | .ok st => .ok st
  | .fail e => .error (.localErr e)
  | .pathNotFound =>
    match env.storageInfo with
    | .error e => .error (.indexErr e)
    | .ok urls =>
      if urls.length = 0 then .error .noURLs
      else
        match env.urlParse with
        | .error e => .error (.parseErr e)
        | .ok _ =>
          match env.httpStatus with
          | .error e => .error (.requestErr e)
          | .ok status =>
            if status = 200 then fsStatDecode env
            else if status = 404 then .error .pathNotFound
            else if status = 500 then
              match env.readBody with
              | .error e => .error (.read500Err e)
              | .ok b => .error (.http500 b)
            else fsStatDecode env

/-- C10: on the remote fallback, a status other than 200, 404 and 500 is not
reported as a status error: FsStat falls through the switch into the JSON
decode, so the caller sees either the decoded stats or only a JSON-decoding
error. -/
theorem fsStat_other_status_falls_through (env : FsStatEnv)
    (urls : List String) (status : Nat)
    (hl : env.localStat = .pathNotFound)
    (hsi : env.storageInfo = .ok urls) (hurls : urls.length ≠ 0)
    (hp : env.urlParse = .ok ())
    (hs : env.httpStatus = .ok status)
    (h200 : status ≠ 200) (h404 : status ≠ 404) (h500 : status ≠ 500) :
    Remote.FsStat env = fsStatDecode env ∧
    ((∃ st, Remote.FsStat env = .ok st ∧ env.jsonDecode = .ok st) ∨
     (∃ e, Remote.FsStat env = .error (.decodeErr e) ∧
       env.jsonDecode = .error e)) := by
  have hmain : Remote.FsStat env = fsStatDecode env := by
    simp [Remote.FsStat, hl, hsi, hurls, hp, hs, h200, h404, h500]
  refine ⟨hmain, ?_⟩
  cases hdec : env.jsonDecode with
  | error e => exact .inr ⟨e, by simp [hmain, fsStatDecode, hdec], rfl⟩
  | ok st => exact .inl ⟨st, by simp [hmain, fsStatDecode, hdec], rfl⟩

/-- Witness for fsStat_other_status_falls_through at status 403. -/
theorem fsStat_other_status_falls_through_witness :
    FsStatEnv.localStat
        { localStat := .pathNotFound
          storageInfo := .ok ["http://peer-a"]
          urlParse := .ok ()
          httpStatus := .ok 403
          readBody := .ok ""
          jsonDecode := .error "invalid character" } =
      .pathNotFound ∧
    FsStatEnv.storageInfo
        { localStat := .pathNotFound
          storageInfo := .ok ["http://peer-a"]
          urlParse := .ok ()
          httpStatus := .ok 403
          readBody := .ok ""
          jsonDecode := .error "invalid character" } =
      .ok ["http://peer-a"] ∧
    (["http://peer-a"] : List String).length ≠ 0 ∧
    (403 : Nat) ≠ 200 ∧ (403 : Nat) ≠ 404 ∧ (403 : Nat) ≠ 500 ∧
    (Remote.FsStat
        { localStat := .pathNotFound
          storageInfo := .ok ["http://peer-a"]
          urlParse := .ok ()
          httpStatus := .ok 403
          readBody := .ok ""
          jsonDecode := .error "invalid character" } =
      fsStatDecode
        { localStat := .pathNotFound
          storageInfo := .ok ["http://peer-a"]
          urlParse := .ok ()
          httpStatus := .ok 403
          readBody := .ok ""
          jsonDecode := .error "invalid character" } ∧
     ((∃ st, Remote.FsStat
          { localStat := .pathNotFound
            storageInfo := .ok ["http://peer-a"]
            urlParse := .ok ()
            httpStatus := .ok 403
            readBody := .ok ""
            jsonDecode := .error "invalid character" } = .ok st ∧
        FsStatEnv.jsonDecode
          { localStat := .pathNotFound
            storageInfo := .ok ["http://peer-a"]
            urlParse := .ok ()
            httpStatus := .ok 403
            readBody := .ok ""
            jsonDecode := .error "invalid character" } = .ok st) ∨
      (∃ e, Remote.FsStat
          { localStat := .pathNotFound
            storageInfo := .ok ["http://peer-a"]
            urlParse := .ok ()
            httpStatus := .ok 403
            readBody := .ok ""
            jsonDecode := .error "invalid character" } =
          .error (.decodeErr e) ∧
        FsStatEnv.jsonDecode
          { localStat := .pathNotFound
            storageInfo := .ok ["http://peer-a"]
            urlParse := .ok ()
            httpStatus := .ok 403
            readBody := .ok ""
            jsonDecode := .error "invalid character" } = .error e))) :=
  ⟨rfl, rfl, by decide, by decide, by decide, by decide,
   fsStat_other_status_falls_through _ ["http://peer-a"] 403 rfl rfl
     (by decide) rfl rfl (by decide) (by decide) (by decide)⟩

/-- Path type of an acquire (storiface.PathType). -/
inductive PathType
  | sealing
  | storage
  | storagePrefer
deriving DecidableEq, Repr

/-- Acquire mode (storiface.AcquireMode). -/
inductive AcquireMode
  | copy
  | move
deriving DecidableEq, Repr

/-- Reservation overhead table selector (FSOverheadSeal vs
FsOverheadFinalized). -/
inductive Overhead
  | seal
  | finalized
deriving DecidableEq, Repr

/-- Observable side effects of one Remote.AcquireSector call. -/
inductive AcqEvent
  | localAcquire (existing allocate : SectorFileType)
  | reserve (toFetch : SectorFileType) (odt : Overhead)
  | releaseStorage
  | fetchRemote (ft : SectorFileType)
  | declareSector (storageID : String) (ft : SectorFileType)
  | deleteRemote (url : String)
deriving DecidableEq, Repr

/-- Errors returned by Remote.AcquireSector, one constructor per return
site. -/
inductive AcquireErr
  | invalidAcquire
  | ctxCanceled
  | localAcquireErr (e : Err)
  | allocateErr (e : Err)
  | reserveErr (e : Err)
  | remoteErr (e : RemoteErr)
deriving DecidableEq, Repr

/-- Outcome oracles for one Remote.AcquireSector call: the two local acquire
calls (as one oracle over both type masks), the reservation, the
per-file-type acquireFromRemote environment, the index declaration and the
remote deletion. -/
structure AcquireEnv where
  localAcquire : SectorFileType → SectorFileType →
    Except Err (SectorPaths × SectorPaths)
  reserve : SectorFileType → Overhead → Option Err
  afr : SectorFileType → AfrEnv
  declareSector : String → SectorFileType → Option Err
  deleteRemote : String → Option Err

/-- Computation of toFetch (remote.go, lines 103-112): the types requested in
existing whose locally acquired path is empty. -/
def computeToFetch (existing : SectorFileType) (paths : SectorPaths) :
    SectorFileType :=
  PathTypes.foldl
    (fun acc ft =>
      if ft &&& existing = 0 then acc
      else if PathByType paths ft = "" then acc ||| ft
      else acc)
    0

/-- Fetch loop of Remote.AcquireSector (remote.go, lines 130-160): for each
path type requested in existing and missing locally, fetch from remote into
the allocated destination, record the path and storage id, declare the sector
in the index (a failure is logged and skips the rest of the iteration), and
in move mode delete the source (a failure is only logged). -/
def acquireFetchLoop (env : AcquireEnv) (existing : SectorFileType)
    (op : AcquireMode) (apaths ids : SectorPaths) :
    List SectorFileType → SectorPaths → SectorPaths → List AcqEvent →
    Except AcquireErr (SectorPaths × SectorPaths) × List AcqEvent
  | [], paths, stores, evs => (.ok (paths, stores), evs)
  | ft :: rest, paths, stores, evs =>
    if ft &&& existing = 0 then
      acquireFetchLoop env existing op apaths ids rest paths stores evs
    else if PathByType paths ft ≠ "" then
      acquireFetchLoop env existing op apaths ids rest paths stores evs
    else
      let dest := PathByType apaths ft
      let storageID := PathByType ids ft
      match Remote.acquireFromRemote (env.afr ft) with
      | .error e => (.error (.remoteErr e), evs ++ [.fetchRemote ft])
      | .ok (url, _merr) =>
        let paths2 := SetPathByType paths ft dest
        let stores2 := SetPathByType stores ft storageID
        let evs2 := evs ++ [.fetchRemote ft, .declareSector storageID ft]
        match env.declareSector storageID ft with
        | some _e =>
          acquireFetchLoop env existing op apaths ids rest paths2 stores2 evs2
        | none =>
          if op = .move then
            acquireFetchLoop env existing op apaths ids rest paths2 stores2
              (evs2 ++ [.deleteRemote url])
          else
            acquireFetchLoop env existing op apaths ids rest paths2 stores2 evs2

/-- Body of Remote.AcquireSector once the single-flight slot is held
(remote.go, lines 98-162): local acquire, toFetch computation, allocation of
fetch destinations, reservation (released on every exit path after this
point), and the fetch loop. -/
def acquireSectorBody (env : AcquireEnv) (existing allocate : SectorFileType)
    (pathType : PathType) (op : AcquireMode) :
    Except AcquireErr (SectorPaths × SectorPaths) × List AcqEvent :=
  match env.localAcquire existing allocate with
  | .error e =>
    (.error (.localAcquireErr e), [.localAcquire existing allocate])
  | .ok (paths, stores) =>
    let toFetch := computeToFetch existing paths
    match env.localAcquire FTNone toFetch with
    | .error e =>
      (.error (.allocateErr e),
       [.localAcquire existing allocate, .localAcquire FTNone toFetch])
    | .ok (apaths, ids) =>
      let odt : Overhead :=
        if pathType = .storage ∨ pathType = .storagePrefer then .finalized
        else .seal
      let evs0 := [.localAcquire existing allocate,
                   .localAcquire FTNone toFetch, .reserve toFetch odt]
      match env.reserve toFetch odt with
      | some e => (.error (.reserveErr e), evs0)
      | none =>
        let r := acquireFetchLoop env existing op apaths ids PathTypes
          paths stores evs0
        (r.1, r.2 ++ [.releaseStorage])

/-- Remote.AcquireSector from remote.go, lines 66-163.  The overlap guard is
the first statement; it fires when existing OR allocate differs from existing
XOR allocate, that is when the two masks share a bit.  Then the single-flight
slot for the sector is claimed: when another acquire of the same sector holds
it, the caller blocks on the waiter channel, and in a sequential run the only
observable exit of that wait is cancellation of the caller context.  The slot
is inserted before the body and closed and deleted on every exit path, so the
returned fetching set equals the input set.  The third component is the event
trace. -/
def Remote.AcquireSector (env : AcquireEnv) (sid : SectorID)
    (existing allocate : SectorFileType) (pathType : PathType)
    (op : AcquireMode) (fetching : List SectorID) :
    Except AcquireErr (SectorPaths × SectorPaths) × List SectorID ×
      List AcqEvent :=
  if existing ||| allocate ≠ existing ^^^ allocate then
    (.error .invalidAcquire, fetching, [])
  else if sid ∈ fetching then
    (.error .ctxCanceled, fetching, [])
  else
    let r := acquireSectorBody env existing allocate pathType op
    (r.1, fetching, r.2)

/-- Bitmask arithmetic behind the overlap guard: OR and XOR agree exactly
when the masks share no bit. -/
theorem or_eq_xor_iff_and_eq_zero (a b : Nat) :
    a ||| b = a ^^^ b ↔ a &&& b = 0 := by
  constructor
  · intro h
    apply Nat.eq_of_testBit_eq
    intro i
    have hb := congrArg (fun n => n.testBit i) h
    simp only [Nat.testBit_or, Nat.testBit_xor] at hb
    simp only [Nat.testBit_and, Nat.zero_testBit]
    cases hta : a.testBit i <;> cases htb : b.testBit i <;> simp_all
  · intro h
    apply Nat.eq_of_testBit_eq
    intro i
    have hb := congrArg (fun n => n.testBit i) h
    simp only [Nat.testBit_and, Nat.zero_testBit] at hb
    simp only [Nat.testBit_or, Nat.testBit_xor]
    cases hta : a.testBit i <;> cases htb : b.testBit i <;> simp_all

/-- C7: when the existing and allocate masks overlap, AcquireSector returns
the invalid-acquire error at once: the fetching set is unchanged (the
single-flight slot was never claimed) and no local acquire, reservation,
fetch, declaration or deletion happened (the event trace is empty). -/
theorem acquireSector_rejects_overlap (env : AcquireEnv) (sid : SectorID)
    (existing allocate : SectorFileType) (pathType : PathType)
    (op : AcquireMode) (fetching : List SectorID)
    (h : existing &&& allocate ≠ 0) :
    Remote.AcquireSector env sid existing allocate pathType op fetching =
      (.error .invalidAcquire, fetching, []) := by
  have hguard : existing ||| allocate ≠ existing ^^^ allocate :=
    fun he => h ((or_eq_xor_iff_and_eq_zero existing allocate).mp he)
  simp only [Remote.AcquireSector, if_pos hguard]

/-- Trivial oracle environment used by concrete AcquireSector inputs. -/
def acquireEnvEx : AcquireEnv :=
  { localAcquire := fun _ _ => .ok (emptyPaths, emptyPaths)
    reserve := fun _ _ => none
    afr := fun _ =>
      { findSector := .ok []
        tempFetchDest := .ok ""
        removeDest := none
        fetch := fun _ => none
        move := none }
    declareSector := fun _ _ => none
    deleteRemote := fun _ => none }

/-- Witness for acquireSector_rejects_overlap: requesting Unsealed both as
existing and as allocate. -/
theorem acquireSector_rejects_overlap_witness :
    FTUnsealed &&& FTUnsealed ≠ 0 ∧
    Remote.AcquireSector acquireEnvEx 5 FTUnsealed FTUnsealed .sealing .copy [] =
      (.error .invalidAcquire, [], []) :=
  ⟨by decide,
   acquireSector_rejects_overlap acquireEnvEx 5 FTUnsealed FTUnsealed
     .sealing .copy [] (by decide)⟩

end Stores

namespace Worker

/-- Call identifiers (storiface.CallID: sector id plus uuid), modelled
opaquely. -/
abbrev CallID := Nat

/-- Modelled from the spec: the durable call-tracker record (the
workerCallTracker implementation lives outside src); it holds the return
type, the done flag and the optional serialized result, keyed by call id. -/
structure CallRecord where
  RetType : String
  Done : Bool
  Result : Option String
deriving DecidableEq, Repr

/-- The keyed state store backing the call tracker. -/
def Tracker := CallID → Option CallRecord

/-- Tracker with no records. -/
def emptyTracker : Tracker := fun _ => none

/-- Modelled from the spec: onStart(callID, returnType) persists the record
with done = false and no result. -/
def Tracker.onStart (tr : Tracker) (ci : CallID) (rt : String) : Tracker :=
  fun c => if c = ci then some { RetType := rt, Done := false, Result := none }
           else tr c

/-- Modelled from the spec: onDone(callID, jsonResult) updates the record to
done = true and stores the serialized result. -/
def Tracker.onDone (tr : Tracker) (ci : CallID) (res : String) : Tracker :=
  fun c => if c = ci then
             (tr ci).map (fun r => { r with Done := true, Result := some res })
           else tr c

/-- Modelled from the spec: onReturned(callID) deletes the record. -/
def Tracker.onReturned (tr : Tracker) (ci : CallID) : Tracker :=
  fun c => if c = ci then none else tr c

/-- Outcome oracles for the doReturn retry loop: attemptErr k is the error of
the k-th returnFunc invocation (none meaning delivered) and ctxDone k tells
whether the worker context is already canceled at the k-th retry wait. -/
structure ReturnEnv where
  attemptErr : Nat → Option Err
  ctxDone : Nat → Bool

/-- Retry loop of doReturn (worker_local.go, lines 383-404) with explicit
fuel: invoke the typed return function; on success return true; on error wait
and retry, except that a canceled context aborts with false (the record was
not marked returned, so it is re-submitted on the next start).  Fuel
exhaustion (none) stands for a run still inside the infinite retry loop. -/
def doReturnFuel (env : ReturnEnv) : Nat → Nat → Option Bool
  | _, 0 => none
  | k, fuel + 1 =>
    match env.attemptErr k with
    | none => some true
    | some _ =>
      if env.ctxDone k then some false
      else doReturnFuel env (k + 1) fuel

/-- doReturn from worker_local.go: the retry loop started at attempt 0. -/
def doReturn (env : ReturnEnv) (fuel : Nat) : Option Bool :=
  doReturnFuel env 0 fuel

/-- Oracles of one asyncCall goroutine: the JSON marshaling of the work
result, the return-delivery loop outcomes and its fuel. -/
structure AsyncEnv where
  marshal : Except Err String
  ret : ReturnEnv
  fuel : Nat

/-- Tail of the asyncCall goroutine (worker_local.go, lines 350-367) acting
on the call tracker after work returned: only when work returned an error is
the result marshaled and the record marked done (a marshal failure is only
logged); then doReturn runs, and only a delivered return marks the record
returned (deletes it). -/
def asyncCallFinish (env : AsyncEnv) (ci : CallID) (workErr : Option Err)
    (tr : Tracker) : Tracker × Option Bool :=
  let tr1 :=
    match workErr with
    | none => tr
    | some _ =>
      match env.marshal with
      | .error _ => tr
      | .ok rb => tr.onDone ci rb
  match doReturn env.ret env.fuel with
  | some true => (tr1.onReturned ci, some true)
  | some false => (tr1, some false)
  | none => (tr1, none)

/-- One asyncCall as seen by the tracker (worker_local.go, lines 330-371):
onStart persists the record, the work function runs (workErr is its error
slot), and the goroutine tail processes the outcome.  The second component is
the doReturn outcome. -/
def asyncCallRun (env : AsyncEnv) (ci : CallID) (rt : String)
    (workErr : Option Err) (tr : Tracker) : Tracker × Option Bool :=
  asyncCallFinish env ci workErr (Tracker.onStart tr ci rt)

/-- C2 (amended): when doReturn aborts because the worker context is
canceled, the call tracker still holds the record for the call id, so it is
re-delivered at the next process start; but the record is marked done = true
with the serialized result only when the work function returned an error
(and marshaling succeeded) - when the work completed with a result, the
record remains with done = false and no stored result, because asyncCall
calls onDone only on a work error. -/
theorem asyncCall_abort_keeps_record (env : AsyncEnv) (ci : CallID)
    (rt : String) (workErr : Option Err) (tr : Tracker)
    (habort : (asyncCallRun env ci rt workErr tr).2 = some false) :
    ∃ rec : CallRecord, (asyncCallRun env ci rt workErr tr).1 ci = some rec ∧
      (workErr = none → rec = { RetType := rt, Done := false, Result := none }) ∧
      (∀ e rb, workErr = some e → env.marshal = .ok rb →
        rec = { RetType := rt, Done := true, Result := some rb }) := by
  cases hd : doReturn env.ret env.fuel with
  | none => simp [asyncCallRun, asyncCallFinish, hd] at habort
  | some b =>
    cases b with
    | true => simp [asyncCallRun, asyncCallFinish, hd] at habort
    | false =>
      cases hw : workErr with
      | none =>
        refine ⟨{ RetType := rt, Done := false, Result := none }, ?_,
          fun _ => rfl, fun e rb he _ => by simp [hw] at he⟩
        simp [asyncCallRun, asyncCallFinish, hd, hw, Tracker.onStart]
      | some e0 =>
        cases hm : env.marshal with
        | error em =>
          refine ⟨{ RetType := rt, Done := false, Result := none }, ?_,
            by simp [hw], fun e rb _ hrb => by simp [hm] at hrb⟩
          simp [asyncCallRun, asyncCallFinish, hd, hw, hm, Tracker.onStart]
        | ok rb0 =>
          refine ⟨{ RetType := rt, Done := true, Result := some rb0 }, ?_,
            by simp [hw], ?_⟩
          · simp [asyncCallRun, asyncCallFinish, hd, hw, hm, Tracker.onStart,
              Tracker.onDone]
          · intro e rb _ hrb
            obtain rfl : rb0 = rb := by injection hrb
            rfl

/-- Return environment in which the first delivery attempt fails and the
worker context is already canceled: doReturn aborts. -/
def returnEnvAbort : ReturnEnv :=
  { attemptErr := fun _ => some "transport failure"
    ctxDone := fun _ => true }

/-- Async environment of the C2 theorems. -/
def asyncEnvCex : AsyncEnv :=
  { marshal := .ok "\x7b\x7d", ret := returnEnvAbort, fuel := 1 }

/-- Witness for asyncCall_abort_keeps_record on the work-error side: work
failed, doReturn aborts, and the record is done with the serialized result. -/
theorem asyncCall_abort_keeps_record_witness :
    (asyncCallRun asyncEnvCex 7 "SealPreCommit1" (some "sealing failed")
        emptyTracker).2 = some false ∧
    ∃ rec : CallRecord,
      (asyncCallRun asyncEnvCex 7 "SealPreCommit1" (some "sealing failed")
          emptyTracker).1 7 = some rec ∧
      (some "sealing failed" = none →
        rec = { RetType := "SealPreCommit1", Done := false, Result := none }) ∧
      (∀ e rb, some "sealing failed" = some e →
        AsyncEnv.marshal asyncEnvCex = .ok rb →
        rec = { RetType := "SealPreCommit1", Done := true, Result := some rb }) :=
  ⟨rfl, asyncCall_abort_keeps_record asyncEnvCex 7 "SealPreCommit1"
    (some "sealing failed") emptyTracker rfl⟩

/-- C2 counterexample: the work function completes with a result (nil error)
and doReturn aborts on the canceled worker context; the tracker record for
the call is still there, but with done = false and no serialized result,
contrary to the claim that it is marked done = true with the result. -/
theorem asyncCall_success_record_not_done :
    (asyncCallRun asyncEnvCex 7 "SealPreCommit2" none emptyTracker).2 =
      some false ∧
    (asyncCallRun asyncEnvCex 7 "SealPreCommit2" none emptyTracker).1 7 =
      some { RetType := "SealPreCommit2", Done := false, Result := none } := by
  exact ⟨rfl, rfl⟩

/-- Program counter of one stage task inside the work closure of
SealPreCommit1, SealPreCommit2 or SealCommit2 (worker_local.go, lines
511-540, 542-558, 571-587).  The positions are: 0 about to take the stage
mutex; 1 about to run counterTask(tt, 1); 2 inside the proof-library call;
3 about to run the deferred Unlock; 4 about to run the deferred
counterTask(tt, -1); 5 done.  The deferred function unlocks BEFORE it
decrements, which is why 3 and 4 are separate positions.  counterTask itself
runs under taskLk, so the counter updates are atomic steps. -/
abbrev StagePc := Fin 6

/-- Interleaving state of n concurrent tasks of one stage on one worker: the
stage mutex owner, the runningTasks entry of the stage, and the program
counter of each task. -/
structure StageSys (n : Nat) where
  mutexHeldBy : Option (Fin n)
  counter : Int
  pc : Fin n → StagePc

/-- One interleaving step: some task executes its next instruction.  Lock
blocks until the mutex is free; Unlock is executed only from position 3,
where the invariant shows the task is the owner. -/
inductive StageStep {n : Nat} : StageSys n → StageSys n → Prop
  | lock (s : StageSys n) (t : Fin n) (hpc : s.pc t = 0)
      (hm : s.mutexHeldBy = none) :
      StageStep s ⟨some t, s.counter, Function.update s.pc t 1⟩
  | inc (s : StageSys n) (t : Fin n) (hpc : s.pc t = 1) :
      StageStep s ⟨s.mutexHeldBy, s.counter + 1, Function.update s.pc t 2⟩
  | work (s : StageSys n) (t : Fin n) (hpc : s.pc t = 2) :
      StageStep s ⟨s.mutexHeldBy, s.counter, Function.update s.pc t 3⟩
  | unlock (s : StageSys n) (t : Fin n) (hpc : s.pc t = 3) :
      StageStep s ⟨none, s.counter, Function.update s.pc t 4⟩
  | dec (s : StageSys n) (t : Fin n) (hpc : s.pc t = 4) :
      StageStep s ⟨s.mutexHeldBy, s.counter - 1, Function.update s.pc t 5⟩

/-- Initial state: mutex free, counter zero, every task before the lock. -/
def stageInit (n : Nat) : StageSys n := ⟨none, 0, fun _ => 0⟩

/-- Reachable states of the stage system. -/
def StageReach {n : Nat} (s : StageSys n) : Prop :=
  Relation.ReflTransGen StageStep (stageInit n) s

/-- Program positions at which a task holds the stage mutex. -/
def heldPc (v : StagePc) : Prop := v = 1 ∨ v = 2 ∨ v = 3

/-- Program positions at which a task is counted in runningTasks: after its
increment and before its (later) decrement. -/
def countedPc (v : StagePc) : Prop := v = 2 ∨ v = 3 ∨ v = 4

instance (v : StagePc) : Decidable (heldPc v) := by
  unfold heldPc; infer_instance

instance (v : StagePc) : Decidable (countedPc v) := by
  unfold countedPc; infer_instance

/-- Integer indicator of a counted position. -/
def countedInd (v : StagePc) : Int := if countedPc v then 1 else 0

/-- Inductive invariant of the stage system: every task between its lock and
its unlock is the mutex owner, and the runningTasks entry equals the number
of tasks between their increment and their decrement. -/
structure StageInv {n : Nat} (s : StageSys n) : Prop where
  lockRegion : ∀ t : Fin n, heldPc (s.pc t) → s.mutexHeldBy = some t
  counterEq : s.counter = ∑ t : Fin n, countedInd (s.pc t)

/-- Indicator sums over a pointwise update change by the difference of the
two indicator values. -/
theorem sum_countedInd_update {n : Nat} (pc : Fin n → StagePc) (t : Fin n)
    (v : StagePc) :
    (∑ u : Fin n, countedInd (Function.update pc t v u)) =
      (∑ u : Fin n, countedInd (pc u)) - countedInd (pc t) + countedInd v := by
  have hfun : (fun u => countedInd (Function.update pc t v u)) =
      Function.update (fun u => countedInd (pc u)) t (countedInd v) := by
    funext u
    by_cases hu : u = t
    · subst hu; simp
    · simp [Function.update, hu]
  rw [hfun, Finset.sum_update_of_mem (Finset.mem_univ t)]
  have hsplit : (∑ u : Fin n, countedInd (pc u)) =
      countedInd (pc t) + ∑ u ∈ Finset.univ \ {t}, countedInd (pc u) := by
    rw [Finset.sum_eq_sum_diff_singleton_add (Finset.mem_univ t)]
    ring
  rw [hsplit]
  ring

/-- The invariant holds initially. -/
theorem stageInv_init (n : Nat) : StageInv (stageInit n) := by
  constructor
  · intro t ht
    rcases ht with h | h | h <;> simp [stageInit] at h
  · simp [stageInit, countedInd, countedPc]

/-- The invariant is preserved by every step. -/
theorem stageInv_step {n : Nat} {s s2 : StageSys n} (inv : StageInv s)
    (hstep : StageStep s s2) : StageInv s2 := by
  cases hstep with
  | lock t hpc hm =>
    constructor
    · intro u hu
      by_cases hut : u = t
      · simp [hut]
      · exfalso
        simp only [Function.update_noteq hut] at hu
        have := inv.lockRegion u hu
        rw [hm] at this
        exact Option.noConfusion this
    · have := sum_countedInd_update s.pc t 1
      simp only [this, ← inv.counterEq, hpc]
      simp [countedInd, countedPc]
  | inc t hpc =>
    constructor
    · intro u hu
      by_cases hut : u = t
      · subst hut
        exact inv.lockRegion u (by simp [heldPc, hpc])
      · simp only [Function.update_noteq hut] at hu
        exact inv.lockRegion u hu
    · have := sum_countedInd_update s.pc t 2
      simp only [this, ← inv.counterEq, hpc]
      simp [countedInd, countedPc]
  | work t hpc =>
    constructor
    · intro u hu
      by_cases hut : u = t
      · subst hut
        exact inv.lockRegion u (by simp [heldPc, hpc])
      · simp only [Function.update_noteq hut] at hu
        exact inv.lockRegion u hu
    · have := sum_countedInd_update s.pc t 3
      simp only [this, ← inv.counterEq, hpc]
      simp [countedInd, countedPc]
  | unlock t hpc =>
    constructor
    · intro u hu
      exfalso
      by_cases hut : u = t
      · subst hut
        simp [Function.update_same] at hu
        rcases hu with h | h | h <;> exact absurd h (by decide)
      · simp only [Function.update_noteq hut] at hu
        have h1 := inv.lockRegion u hu
        have h2 := inv.lockRegion t (by simp [heldPc, hpc])
        rw [h1] at h2
        exact hut (Option.some.inj h2)
    · have := sum_countedInd_update s.pc t 4
      simp only [this, ← inv.counterEq, hpc]
      simp [countedInd, countedPc]
  | dec t hpc =>
    constructor
    · intro u hu
      by_cases hut : u = t
      · subst hut
        simp [Function.update_same] at hu
        rcases hu with h | h | h <;> exact absurd h (by decide)
      · simp only [Function.update_noteq hut] at hu
        exact inv.lockRegion u hu
    · have := sum_countedInd_update s.pc t 5
      simp only [this, ← inv.counterEq, hpc]
      simp [countedInd, countedPc]

/-- Every reachable state satisfies the invariant. -/
theorem stageReach_inv {n : Nat} {s : StageSys n} (h : StageReach s) :
    StageInv s := by
  induction h with
  | refl => exact stageInv_init n
  | tail _hsteps hstep ih => exact stageInv_step ih hstep

/-- C9 (amended): in every reachable state of a stage, at most one task is
inside the proof-library call (positions 1-3 hold the stage mutex, so two
tasks at position 2 coincide), and the runningTasks entry of the stage equals
the number of tasks between their increment and their decrement.  Because the
deferred function releases the mutex before decrementing, that number, and
hence the counter, can transiently exceed 1. -/
theorem stage_mutex_serializes (n : Nat) (s : StageSys n) (h : StageReach s) :
    (∀ t u : Fin n, s.pc t = 2 → s.pc u = 2 → t = u) ∧
    s.counter = ∑ t : Fin n, countedInd (s.pc t) := by
  have inv := stageReach_inv h
  refine ⟨fun t u ht hu => ?_, inv.counterEq⟩
  have h1 := inv.lockRegion t (by simp [heldPc, ht])
  have h2 := inv.lockRegion u (by simp [heldPc, hu])
  rw [h1] at h2
  exact Option.some.inj h2

/-- Intermediate states of the two-task traces: task 0 locks. -/
def stageS1 : StageSys 2 := ⟨some 0, 0, Function.update (fun _ => 0) 0 1⟩

/-- Task 0 increments the counter. -/
def stageS2 : StageSys 2 := ⟨some 0, 1, Function.update stageS1.pc 0 2⟩

/-- Task 0 finishes its proof-library call. -/
def stageS3 : StageSys 2 := ⟨some 0, 1, Function.update stageS2.pc 0 3⟩

/-- Task 0 runs the deferred unlock (the counter is still 1). -/
def stageS4 : StageSys 2 := ⟨none, 1, Function.update stageS3.pc 0 4⟩

/-- Task 1 takes the freed mutex before task 0 decrements. -/
def stageS5 : StageSys 2 := ⟨some 1, 1, Function.update stageS4.pc 1 1⟩

/-- Task 1 increments the counter: two tasks are now counted at once. -/
def stageS6 : StageSys 2 := ⟨some 1, 2, Function.update stageS5.pc 1 2⟩

/-- Witness for stage_mutex_serializes at the reachable state stageS2, where
task 0 sits inside the proof-library call with counter 1. -/
theorem stage_mutex_serializes_witness :
    (∀ t u : Fin 2, stageS2.pc t = 2 → stageS2.pc u = 2 → t = u) ∧
    stageS2.counter = ∑ t : Fin 2, countedInd (stageS2.pc t) :=
  stage_mutex_serializes 2 stageS2
    (Relation.ReflTransGen.tail
      (Relation.ReflTransGen.tail Relation.ReflTransGen.refl
        (StageStep.lock (stageInit 2) 0 rfl rfl))
      (StageStep.inc stageS1 0 (by decide)))

/-- C9 counterexample: with two tasks of one stage, the schedule lock-0,
inc-0, work-0, unlock-0, lock-1, inc-1 reaches a state where
runningTasks[tt] = 2, because task 0 released the mutex before decrementing;
the claim that the counter never exceeds 1 for P1, P2 and C2 fails. -/
theorem stage_counter_reaches_two :
    StageReach stageS6 ∧ stageS6.counter = 2 ∧ 1 < stageS6.counter := by
  refine ⟨?_, by decide, by decide⟩
  exact Relation.ReflTransGen.tail
    (Relation.ReflTransGen.tail
      (Relation.ReflTransGen.tail
        (Relation.ReflTransGen.tail
          (Relation.ReflTransGen.tail
            (Relation.ReflTransGen.tail Relation.ReflTransGen.refl
              (StageStep.lock (stageInit 2) 0 rfl rfl))
            (StageStep.inc stageS1 0 (by decide)))
          (StageStep.work stageS2 0 (by decide)))
        (StageStep.unlock stageS3 0 (by decide)))
      (StageStep.lock stageS4 1 (by decide) rfl))
    (StageStep.inc stageS5 1 (by decide))

end Worker

end Lotus
